import Mathlib

/-!
# Verification of the tssim generation engine

Shallow embedding of `tssim/core/function.py` (TimeFunction: function
adaptation, strategy dispatch, vectorized and iterated generation) and
`tssim/series.py` (TimeSeries: track registry and aggregate generation),
with theorems settling the specified behavioural properties.

Timestamps and produced values are modelled as integers.  A pandas
`Series` is modelled as a list of (index label, value) pairs.  Exceptions
raised by the engine are modelled with `Except`.
-/

namespace Tssim

/-- Errors raised by the engine.  The source raises `ValueError` for the
configuration errors and Python itself raises `TypeError` when a missing
(`None`) function is called. -/
inductive PyError where
  | valueError (msg : String)
  | typeError (msg : String)
deriving DecidableEq, Repr

/-- A pandas Series: an ordered list of (index label, value) pairs. -/
structure PSeries where
  entries : List (Int × Int)
deriving DecidableEq, Repr

/-- `s.index` — the list of index labels, in order. -/
def PSeries.index (s : PSeries) : List Int :=
  s.entries.map Prod.fst

/-- The list of values of the series, in order (what `iter(series)` and
`series.apply` traverse). -/
def PSeries.values (s : PSeries) : List Int :=
  s.entries.map Prod.snd

/-- `len(s)` / `s.shape[0]`. -/
def PSeries.length (s : PSeries) : Nat :=
  s.entries.length

/-- Label-based lookup: the value at the first entry whose label equals
`t`, if any. -/
def PSeries.lookup (s : PSeries) (t : Int) : Option Int :=
  (s.entries.find? (fun p => p.1 == t)).map Prod.snd

/-- Result of calling a user function on a whole index segment: either an
already-labelled `pd.Series`, or a raw value sequence (list/ndarray) that
still needs labelling. -/
inductive VecOut where
  | series (entries : List (Int × Int))
  | raw (vals : List Int)

/-- A normalized (adapted) callable.  One Python object answers both
calling conventions by duck typing: applied to a single time point
(iterated strategy) or to the whole `time_units` series (vectorized
strategy). -/
structure AdaptedF where
  point : Int → Int
  bulk : PSeries → VecOut

/-- A raw caller-supplied callable, as seen by `_evaluate_function`.

* `wrapper` — an instance of a `BaseWrapper` subclass; calling it with no
  arguments produces the final adapted callable (the wrapper self-declares
  its convention and bypasses introspection).
* `native` — a callable with no introspectable metadata: accessing
  `__defaults__`/`__code__` raises `AttributeError`.  `requiredParams`
  records the callable's true arity, which the adapter cannot observe.
* `pyfun` — a Python function with metadata: `co_varnames`, the
  `__defaults__` tuple length (`none` models `__defaults__ is None`), its
  behaviour when called with one positional argument (`asFun`), when
  called as `f(size=n)` (`sizeCall`), and the callable it returns when
  called with no arguments (`gen`). -/
inductive RawCallable where
  | wrapper (produced : AdaptedF)
  | native (requiredParams : Nat) (f : AdaptedF)
  | pyfun (co_varnames : List String) (defaults : Option Nat)
      (asFun : AdaptedF) (sizeCall : Nat → VecOut) (gen : RawCallable)

/-- `TimeFunction._evaluate_function`: normalize a raw callable.

Mirrors the source: a `BaseWrapper` instance is called once; a callable
without metadata is returned unchanged; otherwise
`karg_count = len(co_varnames) - len(__defaults__)` and
  * `karg_count > 1` raises `ValueError`,
  * `karg_count == 0` with a `size` parameter wraps into
    `lambda x: function(size=x.shape[0])` (applying that lambda to a
    scalar would raise in Python; the scalar view is never exercised and
    is given the dummy value `0`),
  * `karg_count == 1` returns the function unchanged,
  * otherwise the function is a generator: call it once and recursively
    adapt the result. -/
def evaluate_function : RawCallable → Except PyError AdaptedF
  | .wrapper produced => .ok produced
  | .native _ f => .ok f
  | .pyfun co_varnames defaults asFun sizeCall gen =>
    let kwargs_count := match defaults with
      | some n => n
      | none => 0
    let karg_count := co_varnames.length - kwargs_count
    if 1 < karg_count then
      .error (.valueError "Function passed to TimeFunction needs to have 0 arguments for a function generator or 1 arugment for a constant function.")
    else if karg_count == 0 && co_varnames.contains "size" then
      .ok { point := fun _ => 0, bulk := fun x => sizeCall x.length }
    else if karg_count == 1 then
      .ok asFun
    else
      evaluate_function gen

/-- How many times `_evaluate_function` invokes its own argument while
adapting it, read off each branch of the source: the `BaseWrapper` branch
calls `function()` once, the generator branch calls `function()` once,
and no other branch calls `function` during adaptation (the `size` branch
builds a lambda that is only called later, during generation). -/
def adaptation_calls : RawCallable → Nat
  | .wrapper _ => 1
  | .native _ _ => 0
  | .pyfun co_varnames defaults _ _ _ =>
    let kwargs_count := match defaults with
      | some n => n
      | none => 0
    let karg_count := co_varnames.length - kwargs_count
    if 1 < karg_count then 0
    else if karg_count == 0 && co_varnames.contains "size" then 0
    else if karg_count == 1 then 0
    else 1

/-- `TimeFunction`: up to two raw callables plus an optional condition.
The condition is modelled as an elementwise predicate on values (in the
vectorized path the source applies it to the whole series and uses the
result as a boolean mask; pandas broadcasts elementwise predicates). -/
structure TimeFunction where
  vectorized : Option RawCallable
  iterated : Option RawCallable
  condition : Option (Int → Bool)

/-- `TimeFunction.__init__`: requires at least one of `vectorized` and
`iterated` (Python truthiness: a supplied callable is always truthy,
`None` is falsy). -/
def TimeFunction.init (vectorized iterated : Option RawCallable)
    (condition : Option (Int → Bool)) : Except PyError TimeFunction :=
  if vectorized.isNone && iterated.isNone then
    .error (.valueError "At least one function / function generator needsto be provided")
  else
    .ok ⟨vectorized, iterated, condition⟩

/-- The conditioned iterated loop (`yield_values` in the source): apply
the adapted step function to each next time value, stop (excluding the
failing value) as soon as the condition is false, or when the sequence is
exhausted. -/
def collect_while (cond : Int → Bool) (f : Int → Int) : List Int → List Int
  | [] => []
  | t :: ts =>
    let v := f t
    if cond v then v :: collect_while cond f ts else []

/-- `TimeFunction._generate_iterated`.  With a condition the collected
values are labelled with the matching positional slice
`time_units[:len(values)].index`; without one, `time_units.apply` maps
the step function over the values keeping the index. -/
def TimeFunction.generate_iterated (tf : TimeFunction) (time_units : PSeries) :
    Except PyError PSeries :=
  match tf.iterated with
  | none => .error (.typeError "NoneType object is not callable")
  | some raw =>
    match evaluate_function raw with
    | .error e => .error e
    | .ok time_func =>
      match tf.condition with
      | some cond =>
        let vals := collect_while cond time_func.point time_units.values
        .ok ⟨(time_units.index.take vals.length).zip vals⟩
      | none =>
        .ok ⟨time_units.entries.map (fun p => (p.1, time_func.point p.2))⟩

/-- `TimeFunction._generate_vectorized`.  The adapted function is called
once with the whole series; a non-Series result is labelled with the
input's index (`pd.Series(values, index=time_units.index)` raises
`ValueError` on a length mismatch); a condition keeps exactly the entries
whose value satisfies it. -/
def TimeFunction.generate_vectorized (tf : TimeFunction) (time_units : PSeries) :
    Except PyError PSeries :=
  match tf.vectorized with
  | none => .error (.typeError "NoneType object is not callable")
  | some raw =>
    match evaluate_function raw with
    | .error e => .error e
    | .ok time_func =>
      let labelled : Except PyError PSeries :=
        match time_func.bulk time_units with
        | .series entries => .ok ⟨entries⟩
        | .raw vals =>
          if vals.length = time_units.entries.length then
            .ok ⟨time_units.index.zip vals⟩
          else
            .error (.valueError "Length of passed values does not match length of index")
      match labelled with
      | .error e => .error e
      | .ok time_values =>
        match tf.condition with
        | some cond => .ok ⟨time_values.entries.filter (fun p => cond p.2)⟩
        | none => .ok time_values

/-- `TimeFunction.generate`: strategy dispatch, exactly the nested
conditionals of the source. -/
def TimeFunction.generate (tf : TimeFunction) (time_units : PSeries) :
    Except PyError PSeries :=
  if tf.condition.isSome && tf.iterated.isSome then
    tf.generate_iterated time_units
  else if tf.vectorized.isSome then
    tf.generate_vectorized time_units
  else
    tf.generate_iterated time_units

/-- Modelled from the spec: `tssim/tracks.py` is not available under
`src/`.  Per the spec, `Track.generate()` produces one labelled series
whose index is a subset of the owning series' time index; for the
aggregation claims only that produced series matters, so a track is
modelled by the series its generation yields. -/
structure TimeTrack where
  generated : PSeries

/-- `TimeSeries`: a time index plus a name → track mapping (an
insertion-ordered dict, modelled as an association list). -/
structure TimeSeries where
  index : List Int
  tracks : List (String × TimeTrack)

/-- `TimeSeries.add`: register a track under a fresh name.  The method
mutates `self.tracks`, so it is modelled as returning the outcome
together with the post-state of the series: a duplicate name raises
`ValueError` before any assignment, leaving the registry as it was;
otherwise the track is inserted under `name`. -/
def TimeSeries.add (ts : TimeSeries) (name : String) (track : TimeTrack) :
    Except PyError Unit × TimeSeries :=
  if (ts.tracks.map Prod.fst).contains name then
    (.error (.valueError "TimeTrack with given name is already given."), ts)
  else
    (.ok (), ⟨ts.index, ts.tracks ++ [(name, track)]⟩)

/-- Dict lookup `ts.tracks[name]` (`TimeSeries.__getitem__`). -/
def TimeSeries.getTrack (ts : TimeSeries) (name : String) : Option TimeTrack :=
  (ts.tracks.find? (fun p => p.1 == name)).map Prod.snd

/-- Insert into a sorted list (ascending). -/
def sortInsert (x : Int) : List Int → List Int
  | [] => [x]
  | y :: ys => if x ≤ y then x :: y :: ys else y :: sortInsert x ys

/-- Insertion sort on integer labels. -/
def sortInts : List Int → List Int
  | [] => []
  | x :: xs => sortInsert x (sortInts xs)

/-- The outer join performed by `pd.concat(axis=1)`: the sorted union of
the per-series index labels, without duplicates. -/
def unionIndex (idxs : List (List Int)) : List Int :=
  sortInts idxs.flatten.dedup

/-- The row sum performed by `.sum(axis=1)` at label `t`: a series
lacking `t` contributes `NaN` after the outer join, which the default
`skipna=True` summation treats as zero. -/
def alignedSum (series : List PSeries) (t : Int) : Int :=
  (series.map (fun s => (s.lookup t).getD 0)).sum

/-- `TimeSeries.generate`: generate every track and combine the per-track
series with `pd.concat(track_values, axis=1).sum(axis=1)` — align on the
union of the indexes and sum row-wise with missing entries as zero.  The
per-track results of the returned `TimeSeriesResult` are the tracks'
generated series themselves; only the aggregate series is computed here. -/
def TimeSeries.generate (ts : TimeSeries) : PSeries :=
  let track_values := ts.tracks.map (fun p => p.2.generated)
  let union := unionIndex (track_values.map PSeries.index)
  ⟨union.map (fun t => (t, alignedSum track_values t))⟩

/-! ## Sample objects used by the witness theorems -/

/-- The identity step function, as an adapted callable: applied to a
point it returns the point, applied to a series it returns the raw value
sequence. -/
def idAdapted : AdaptedF :=
  ⟨fun t => t, fun s => .raw s.values⟩

/-- A metadata-free callable (e.g. a builtin) behaving as `idAdapted`. -/
def rawId : RawCallable :=
  .native 1 idAdapted

/-- A dummy `size`-calling behaviour for sample `pyfun` callables. -/
def noSizeCall : Nat → VecOut :=
  fun _ => .raw []

/-- A sample `time_units` series with index labels 0..4 and time values
0..4. -/
def tuFive : PSeries :=
  ⟨[(0, 0), (1, 1), (2, 2), (3, 3), (4, 4)]⟩

/-! ## Theorems -/

/-- C1: `generate` selects its strategy in the fixed priority order of
the source: condition and iterated both set → iterated strategy;
otherwise vectorized set → vectorized strategy; otherwise the iterated
strategy. -/
theorem generate_strategy_selection (tf : TimeFunction) (tu : PSeries) :
    (tf.condition.isSome = true → tf.iterated.isSome = true →
      tf.generate tu = tf.generate_iterated tu) ∧
    (¬ (tf.condition.isSome = true ∧ tf.iterated.isSome = true) →
      tf.vectorized.isSome = true → tf.generate tu = tf.generate_vectorized tu) ∧
    (¬ (tf.condition.isSome = true ∧ tf.iterated.isSome = true) →
      tf.vectorized.isSome = false → tf.generate tu = tf.generate_iterated tu) := by
  refine ⟨fun h1 h2 => ?_, fun h1 h2 => ?_, fun h1 h2 => ?_⟩ <;>
    simp_all [TimeFunction.generate]

/-- Witness for C1 at a concrete time function with condition and
iterated set. -/
theorem generate_strategy_selection_witness :
    TimeFunction.generate ⟨none, some rawId, some (fun v => decide (v < 3))⟩ tuFive =
      TimeFunction.generate_iterated ⟨none, some rawId, some (fun v => decide (v < 3))⟩ tuFive :=
  (generate_strategy_selection ⟨none, some rawId, some (fun v => decide (v < 3))⟩ tuFive).1
    rfl rfl

/-- C6: constructing a `TimeFunction` with neither `vectorized` nor
`iterated` raises; providing at least one of the two succeeds. -/
theorem init_requires_some_function (c : Option (Int → Bool)) :
    TimeFunction.init none none c =
      .error (.valueError "At least one function / function generator needsto be provided") ∧
    ∀ v i : Option RawCallable, (v.isSome = true ∨ i.isSome = true) →
      TimeFunction.init v i c = .ok ⟨v, i, c⟩ := by
  refine ⟨rfl, fun v i h => ?_⟩
  rcases h with h | h <;> simp [TimeFunction.init, Option.isNone, *] <;>
    cases v <;> cases i <;> simp_all

/-- Witness for C6: the failing empty construction and a succeeding one. -/
theorem init_requires_some_function_witness :
    TimeFunction.init none none none =
      .error (.valueError "At least one function / function generator needsto be provided") ∧
    TimeFunction.init (some rawId) none none = .ok ⟨some rawId, none, none⟩ :=
  ⟨(init_requires_some_function none).1,
   (init_requires_some_function none).2 (some rawId) none (Or.inl rfl)⟩

/-- C8: a raw Python function whose required-argument count
(`len(co_varnames) - len(__defaults__)`) is two or more is rejected with
the excess-arity `ValueError`, so no normalized function is produced. -/
theorem evaluate_function_excess_arity (co_varnames : List String)
    (defaults : Option Nat) (asFun : AdaptedF) (sizeCall : Nat → VecOut)
    (gen : RawCallable) (h : 2 ≤ co_varnames.length - defaults.getD 0) :
    evaluate_function (.pyfun co_varnames defaults asFun sizeCall gen) =
      .error (.valueError "Function passed to TimeFunction needs to have 0 arguments for a function generator or 1 arugment for a constant function.") := by
  rcases defaults with _ | n <;>
    simp only [Option.getD_none, Option.getD_some] at h <;>
    · simp only [evaluate_function]
      rw [if_pos (by omega)]

/-- Witness for C8: a two-required-parameter function is rejected. -/
theorem evaluate_function_excess_arity_witness :
    evaluate_function (.pyfun ["a", "b"] none idAdapted noSizeCall rawId) =
      .error (.valueError "Function passed to TimeFunction needs to have 0 arguments for a function generator or 1 arugment for a constant function.") :=
  evaluate_function_excess_arity ["a", "b"] none idAdapted noSizeCall rawId (by decide)

/-- C9: evaluation of the code at the failing input.  A Python function
with zero required parameters, no `size` keyword and one local variable
(`def g(): f = make_fn(); return f`) has `co_varnames = ('f',)` and
`__defaults__ = None`.  Per the claim, the spec's arity formula
(`required = total_params - params_with_defaults = 0`) and the module's
own docstring ("If function takes no arguments it is expected to be a
function generator"), `g` should be invoked once and the callable it
returns adapted recursively.  Instead the adapter's count
`karg_count = len(co_varnames) - 0 = 1` — `co_varnames` lists locals as
well as parameters — sends `g` down the finalized-function branch: it is
returned unchanged and never invoked, so the generator is not resolved. -/
theorem evaluate_function_zero_param_with_local (asFun : AdaptedF)
    (sizeCall : Nat → VecOut) (gen : RawCallable) :
    evaluate_function (.pyfun ["f"] none asFun sizeCall gen) = .ok asFun ∧
    adaptation_calls (.pyfun ["f"] none asFun sizeCall gen) = 0 :=
  ⟨rfl, rfl⟩

/-- C10: a callable without introspectable metadata (the
`AttributeError` path) is returned unchanged, whatever its true arity:
no arity validation occurs, so even a callable with several required
parameters is not rejected at adaptation time. -/
theorem evaluate_function_no_metadata_unchanged (requiredParams : Nat)
    (f : AdaptedF) :
    evaluate_function (.native requiredParams f) = .ok f := rfl

/-- C7: adding a track under an already-registered name raises
`ValueError`; the registry is untouched on that path, so the previously
registered track is still found under the name afterwards. -/
theorem add_duplicate_name_rejected (ts : TimeSeries) (name : String)
    (track previous : TimeTrack) (h : ts.getTrack name = some previous) :
    (ts.add name track).1 =
      .error (.valueError "TimeTrack with given name is already given.") ∧
    (ts.add name track).2 = ts ∧
    (ts.add name track).2.getTrack name = some previous := by
  have hmem : name ∈ ts.tracks.map Prod.fst := by
    unfold TimeSeries.getTrack at h
    rcases hfind : ts.tracks.find? (fun p => p.1 == name) with _ | p
    · rw [hfind] at h
      simp at h
    · exact List.mem_map.mpr
        ⟨p, List.mem_of_find?_eq_some hfind,
          by simpa using List.find?_some hfind⟩
  have hc : (ts.tracks.map Prod.fst).contains name = true := by
    simpa using hmem
  simp only [TimeSeries.add]
  rw [if_pos hc]
  exact ⟨rfl, rfl, h⟩

/-- Witness for C7: a duplicate registration on a concrete one-track
series fails and keeps the original track. -/
theorem add_duplicate_name_rejected_witness :
    (TimeSeries.add ⟨[0], [("a", ⟨tuFive⟩)]⟩ "a" ⟨⟨[(0, 1)]⟩⟩).1 =
      .error (.valueError "TimeTrack with given name is already given.") ∧
    (TimeSeries.add ⟨[0], [("a", ⟨tuFive⟩)]⟩ "a" ⟨⟨[(0, 1)]⟩⟩).2 =
      ⟨[0], [("a", ⟨tuFive⟩)]⟩ ∧
    (TimeSeries.add ⟨[0], [("a", ⟨tuFive⟩)]⟩ "a" ⟨⟨[(0, 1)]⟩⟩).2.getTrack "a" =
      some ⟨tuFive⟩ :=
  add_duplicate_name_rejected ⟨[0], [("a", ⟨tuFive⟩)]⟩ "a" ⟨⟨[(0, 1)]⟩⟩ ⟨tuFive⟩ rfl

/-- The conditioned iterated loop collects exactly the longest valid
run: there is a cut `k` with the collected values equal to the step
function mapped over the first `k` inputs, the condition true on each of
those values, and either the inputs exhausted or the condition false on
the value produced at position `k`. -/
theorem collect_while_spec (cond : Int → Bool) (f : Int → Int) (l : List Int) :
    ∃ k, k ≤ l.length ∧
      collect_while cond f l = (l.take k).map f ∧
      (∀ v ∈ l.take k, cond (f v) = true) ∧
      (k = l.length ∨ ∃ h : k < l.length, cond (f (l.get ⟨k, h⟩)) = false) := by
  induction l with
  | nil => exact ⟨0, Nat.le_refl 0, rfl, by simp, Or.inl rfl⟩
  | cons t ts ih =>
    cases hc : cond (f t) with
    | true =>
      obtain ⟨k, hk, hcw, hall, hlast⟩ := ih
      refine ⟨k + 1, by simpa using hk, ?_, ?_, ?_⟩
      · simp [collect_while, hc, hcw]
      · intro v hv
        rcases (by simpa using hv : v = t ∨ v ∈ ts.take k) with rfl | hv2
        · exact hc
        · exact hall v hv2
      · rcases hlast with rfl | ⟨hlt, hfail⟩
        · exact Or.inl (by simp)
        · exact Or.inr ⟨by simpa using Nat.succ_lt_succ hlt, by simpa using hfail⟩
    | false =>
      refine ⟨0, Nat.zero_le _, ?_, by simp, Or.inr ⟨by simp, by simpa using hc⟩⟩
      simp [collect_while, hc]

/-- C2: with a condition and an iterated function, `generate` returns
the longest contiguous prefix of `time_points` on which the condition
holds of every produced value; the first failing value is excluded, and
the labels are the matching prefix of `time_points`. -/
theorem generate_iterated_longest_valid_run
    (vec : Option RawCallable) (raw : RawCallable) (F : AdaptedF)
    (cond : Int → Bool) (tu : PSeries)
    (hF : evaluate_function raw = .ok F) :
    ∃ k, k ≤ tu.values.length ∧
      TimeFunction.generate ⟨vec, some raw, some cond⟩ tu =
        .ok ⟨(tu.index.take k).zip ((tu.values.take k).map F.point)⟩ ∧
      (∀ v ∈ tu.values.take k, cond (F.point v) = true) ∧
      (k = tu.values.length ∨
        ∃ h : k < tu.values.length, cond (F.point (tu.values.get ⟨k, h⟩)) = false) := by
  obtain ⟨k, hk, hcw, hall, hlast⟩ := collect_while_spec cond F.point tu.values
  refine ⟨k, hk, ?_, hall, hlast⟩
  have hgen : TimeFunction.generate ⟨vec, some raw, some cond⟩ tu =
      TimeFunction.generate_iterated ⟨vec, some raw, some cond⟩ tu := by
    simp [TimeFunction.generate]
  rw [hgen]
  simp only [TimeFunction.generate_iterated, hF]
  rw [hcw, List.length_map, List.length_take, Nat.min_eq_left hk]

/-- Witness for C2 at the spec's example: time points 0..4, identity
step function, condition `v < 3`. -/
theorem generate_iterated_longest_valid_run_witness :
    ∃ k, k ≤ tuFive.values.length ∧
      TimeFunction.generate ⟨none, some rawId, some (fun v => decide (v < 3))⟩ tuFive =
        .ok ⟨(tuFive.index.take k).zip ((tuFive.values.take k).map idAdapted.point)⟩ ∧
      (∀ v ∈ tuFive.values.take k, (fun v => decide (v < 3)) (idAdapted.point v) = true) ∧
      (k = tuFive.values.length ∨
        ∃ h : k < tuFive.values.length,
          (fun v => decide (v < 3)) (idAdapted.point (tuFive.values.get ⟨k, h⟩)) = false) :=
  generate_iterated_longest_valid_run none rawId idAdapted
    (fun v => decide (v < 3)) tuFive rfl

/-- C3: with a condition and a vectorized function (no iterated one),
`generate` keeps exactly the produced entries whose value satisfies the
condition, preserving relative order (the result is a sublist) and the
original labels; the kept set need not be a prefix. -/
theorem generate_vectorized_condition_filter
    (raw : RawCallable) (F : AdaptedF) (cond : Int → Bool) (tu : PSeries)
    (l : List Int) (hF : evaluate_function raw = .ok F)
    (hbulk : F.bulk tu = .raw l) (hlen : l.length = tu.entries.length) :
    TimeFunction.generate ⟨some raw, none, some cond⟩ tu =
      .ok ⟨(tu.index.zip l).filter (fun p => cond p.2)⟩ ∧
    List.Sublist ((tu.index.zip l).filter (fun p => cond p.2)) (tu.index.zip l) ∧
    ∀ p : Int × Int,
      p ∈ (tu.index.zip l).filter (fun p => cond p.2) ↔
        p ∈ tu.index.zip l ∧ cond p.2 = true := by
  refine ⟨?_, List.filter_sublist _, fun p => by simp [List.mem_filter]⟩
  have hgen : TimeFunction.generate ⟨some raw, none, some cond⟩ tu =
      TimeFunction.generate_vectorized ⟨some raw, none, some cond⟩ tu := by
    simp [TimeFunction.generate]
  rw [hgen]
  simp [TimeFunction.generate_vectorized, hF, hbulk, hlen]

/-- Witness for C3 at the spec's example: four time points, a bulk
function producing `[1, -1, 2, -2]`, condition `0 < v`; positions 0 and
2 are kept. -/
theorem generate_vectorized_condition_filter_witness :
    TimeFunction.generate
        ⟨some (.native 1 ⟨fun t => t, fun _ => .raw [1, -1, 2, -2]⟩), none,
          some (fun v => decide (0 < v))⟩ ⟨[(0, 0), (1, 1), (2, 2), (3, 3)]⟩ =
      .ok ⟨((PSeries.index ⟨[(0, 0), (1, 1), (2, 2), (3, 3)]⟩).zip
        [1, -1, 2, -2]).filter (fun p => decide (0 < p.2))⟩ :=
  (generate_vectorized_condition_filter
    (.native 1 ⟨fun t => t, fun _ => .raw [1, -1, 2, -2]⟩)
    ⟨fun t => t, fun _ => .raw [1, -1, 2, -2]⟩ (fun v => decide (0 < v))
    ⟨[(0, 0), (1, 1), (2, 2), (3, 3)]⟩ [1, -1, 2, -2] rfl rfl rfl).1

/-- C5: without a condition, generation never terminates early — one
value per timestamp, labelled by the input index in order, for both the
iterated-only and the vectorized-only configuration (the latter when the
bulk call returns a raw value sequence of matching length, as the
vectorized contract requires). -/
theorem generate_no_condition_one_value_per_timestamp
    (raw : RawCallable) (F : AdaptedF) (tu : PSeries)
    (hF : evaluate_function raw = .ok F) :
    (∃ out, TimeFunction.generate ⟨none, some raw, none⟩ tu = .ok out ∧
      out.index = tu.index ∧ out.values = tu.values.map F.point ∧
      out.length = tu.length) ∧
    ∀ l, F.bulk tu = .raw l → l.length = tu.entries.length →
      ∃ out, TimeFunction.generate ⟨some raw, none, none⟩ tu = .ok out ∧
        out.index = tu.index ∧ out.values = l ∧ out.length = tu.length := by
  constructor
  · refine ⟨⟨tu.entries.map (fun p => (p.1, F.point p.2))⟩, ?_, ?_, ?_, ?_⟩
    · have hgen : TimeFunction.generate ⟨none, some raw, none⟩ tu =
          TimeFunction.generate_iterated ⟨none, some raw, none⟩ tu := by
        simp [TimeFunction.generate]
      rw [hgen]
      simp [TimeFunction.generate_iterated, hF]
    · simp [PSeries.index, List.map_map, Function.comp]
    · simp [PSeries.values, List.map_map, Function.comp]
    · simp [PSeries.length]
  · intro l hbulk hlen
    refine ⟨⟨tu.index.zip l⟩, ?_, ?_, ?_, ?_⟩
    · have hgen : TimeFunction.generate ⟨some raw, none, none⟩ tu =
          TimeFunction.generate_vectorized ⟨some raw, none, none⟩ tu := by
        simp [TimeFunction.generate]
      rw [hgen]
      simp [TimeFunction.generate_vectorized, hF, hbulk, hlen]
    · exact List.map_fst_zip tu.index l (by simp [PSeries.index, hlen])
    · exact List.map_snd_zip tu.index l (by simp [PSeries.index, hlen])
    · simp [PSeries.length, PSeries.index, List.length_zip, hlen]

/-- Witness for C5: both configurations at the identity function over
five time points. -/
theorem generate_no_condition_one_value_per_timestamp_witness :
    (∃ out, TimeFunction.generate ⟨none, some rawId, none⟩ tuFive = .ok out ∧
      out.index = tuFive.index ∧ out.values = tuFive.values.map idAdapted.point ∧
      out.length = tuFive.length) ∧
    (∃ out, TimeFunction.generate ⟨some rawId, none, none⟩ tuFive = .ok out ∧
      out.index = tuFive.index ∧ out.values = tuFive.values ∧
      out.length = tuFive.length) :=
  ⟨(generate_no_condition_one_value_per_timestamp rawId idAdapted tuFive rfl).1,
   (generate_no_condition_one_value_per_timestamp rawId idAdapted tuFive rfl).2
     tuFive.values rfl rfl⟩

theorem mem_sortInsert (x u : Int) (l : List Int) :
    u ∈ sortInsert x l ↔ u = x ∨ u ∈ l := by
  induction l with
  | nil => simp [sortInsert]
  | cons y ys ih =>
    by_cases h : x ≤ y <;> simp [sortInsert, h, ih]
    tauto

theorem mem_sortInts (u : Int) (l : List Int) : u ∈ sortInts l ↔ u ∈ l := by
  induction l with
  | nil => simp [sortInts]
  | cons x xs ih => simp [sortInts, mem_sortInsert, ih]

/-- Tabulating a function over a label list keeps the labels. -/
theorem map_fst_tabulate (g : Int → Int) (l : List Int) :
    (l.map (fun u => (u, g u))).map Prod.fst = l := by
  induction l <;> simp_all

/-- Label-keyed lookup in a series built by tabulating a function over a
label list finds the tabulated value of any member label. -/
theorem find?_tabulate (g : Int → Int) (l : List Int) (t : Int) (h : t ∈ l) :
    (l.map (fun u => (u, g u))).find? (fun p => p.1 == t) = some (t, g t) := by
  induction l with
  | nil => simp at h
  | cons u us ih =>
    by_cases hu : u = t
    · subst hu
      simp [List.find?]
    · have hm : t ∈ us := by
        rcases List.mem_cons.mp h with rfl | hm
        · exact absurd rfl hu
        · exact hm
      have hbeq : (u == t) = false := by simpa using hu
      simp only [List.map_cons, List.find?_cons, hbeq]
      exact ih hm

/-- A series has no value at a label outside its index. -/
theorem lookup_eq_none_of_not_mem (s : PSeries) (t : Int) (h : t ∉ s.index) :
    s.lookup t = none := by
  unfold PSeries.lookup
  have hfind : s.entries.find? (fun p => p.1 == t) = none := by
    rw [List.find?_eq_none]
    intro p hp
    simp only [beq_iff_eq]
    intro hpt
    exact h (List.mem_map.mpr ⟨p, hp, hpt⟩)
  rw [hfind]
  rfl

/-- C4: `TimeSeries.generate` aligns the per-track series on the union
of their indexes (first conjunct), and at every aggregate label the
value is the element-wise sum with a track lacking that label
contributing zero (second conjunct); in particular, with two tracks
where the second lacks label `t`, the aggregate at `t` is the first
track's value alone (third conjunct). -/
theorem timeseries_generate_aligned_zero_fill (ts : TimeSeries) (t : Int)
    (ht : t ∈ ts.generate.index) :
    (∀ u : Int, u ∈ ts.generate.index ↔
      ∃ p ∈ ts.tracks, u ∈ p.2.generated.index) ∧
    ts.generate.lookup t =
      some (alignedSum (ts.tracks.map (fun p => p.2.generated)) t) ∧
    (∀ nA nB A B v, ts.tracks = [(nA, A), (nB, B)] →
      A.generated.lookup t = some v → t ∉ B.generated.index →
      ts.generate.lookup t = some v) := by
  have hidx : ts.generate.index =
      unionIndex ((ts.tracks.map (fun p => p.2.generated)).map PSeries.index) :=
    map_fst_tabulate _ _
  have hmem : ∀ u : Int, u ∈ ts.generate.index ↔
      ∃ p ∈ ts.tracks, u ∈ p.2.generated.index := by
    intro u
    rw [hidx]
    simp only [unionIndex, mem_sortInts, List.mem_dedup, List.mem_flatten,
      List.mem_map, List.map_map]
    constructor
    · rintro ⟨s, ⟨p, hp, rfl⟩, hu⟩
      exact ⟨p, hp, hu⟩
    · rintro ⟨p, hp, hu⟩
      exact ⟨PSeries.index p.2.generated, ⟨p, hp, rfl⟩, hu⟩
  have hlookup : ts.generate.lookup t =
      some (alignedSum (ts.tracks.map (fun p => p.2.generated)) t) := by
    have htu : t ∈ unionIndex
        ((ts.tracks.map (fun p => p.2.generated)).map PSeries.index) := by
      rw [← hidx]; exact ht
    show ((ts.generate.entries.find? (fun p => p.1 == t)).map Prod.snd) = _
    rw [show ts.generate.entries =
        (unionIndex ((ts.tracks.map (fun p => p.2.generated)).map PSeries.index)).map
          (fun u => (u, alignedSum (ts.tracks.map (fun p => p.2.generated)) u)) from rfl]
    rw [find?_tabulate _ _ _ htu]
    rfl
  refine ⟨hmem, hlookup, fun nA nB A B v htr hA hB => ?_⟩
  rw [hlookup, htr]
  have hBnone : B.generated.lookup t = none := lookup_eq_none_of_not_mem _ _ hB
  simp [alignedSum, hA, hBnone]

/-- Witness for C4: track `a` covers labels 0..4 with value 1, track `b`
only 0..2 with value 10; the aggregate at label 3 equals track `a`'s
value alone. -/
theorem timeseries_generate_aligned_zero_fill_witness :
    PSeries.lookup
      (TimeSeries.generate
        ⟨[0, 1, 2, 3, 4],
          [("a", ⟨⟨[(0, 1), (1, 1), (2, 1), (3, 1), (4, 1)]⟩⟩),
           ("b", ⟨⟨[(0, 10), (1, 10), (2, 10)]⟩⟩)]⟩) 3 = some 1 :=
  (timeseries_generate_aligned_zero_fill
    ⟨[0, 1, 2, 3, 4],
      [("a", ⟨⟨[(0, 1), (1, 1), (2, 1), (3, 1), (4, 1)]⟩⟩),
       ("b", ⟨⟨[(0, 10), (1, 10), (2, 10)]⟩⟩)]⟩ 3 (by decide)).2.2
    "a" "b" ⟨⟨[(0, 1), (1, 1), (2, 1), (3, 1), (4, 1)]⟩⟩
    ⟨⟨[(0, 10), (1, 10), (2, 10)]⟩⟩ 1 rfl rfl (by decide)

end Tssim
